import Mathlib

/-!
Verification of the rpad-cogs repository: a shallow embedding of the
PadInfo cog (monster-query resolution against periodically rebuilt
nickname indexes, `padinfo/padinfo.py`) and of the AutoMod2 cog
(pattern-based channel moderation, `automod2/automod2.py`), together
with theorems settling the specification claims.

Python strings are embedded as Lean `String` (lists of characters),
Python dicts as insertion-ordered association lists, fallible Python
code as `Except PyErr`, and the cog's mutable attributes as explicit
state records threaded through the functions.  External collaborators
that live outside the two source files (the Dadguide cog's
`create_index`/`find_monster`, `rpadutils.rmdiacritics`, the discord
permission checks) are either taken as explicit function parameters or
modelled from the specification, as marked in each doc comment.
-/

deriving instance DecidableEq for Except

namespace RpadCogs

/-- Python exception kinds that the embedded code can raise. -/
inductive PyErr
  | attributeError
  | keyError
  | reportableError
  | valueError
  | indexError
  | generic
deriving DecidableEq

/-! ## Python string primitives -/

/-- Whitespace test matching the characters `str.strip` removes that can
occur in chat queries (space, tab, newline, carriage return). -/
def isSpaceChar (c : Char) : Bool := c == ' ' || c == '\t' || c == '\n' || c == '\r'

/-- ASCII lower-casing of one character, as `str.lower` acts on the
letters relevant here. -/
def pyLowerChar (c : Char) : Char :=
  if 65 ≤ c.toNat ∧ c.toNat ≤ 90 then Char.ofNat (c.toNat + 32) else c

/-- Character-wise `str.lower`. -/
def pyLower (l : List Char) : List Char := l.map pyLowerChar

/-- Embedding of `str.strip`: drop whitespace from both ends. -/
def pyStrip (l : List Char) : List Char :=
  ((l.dropWhile isSpaceChar).reverse.dropWhile isSpaceChar).reverse

/-- Lower-cased form of a string. -/
def lowerStr (s : String) : String := String.mk (pyLower s.data)

/-- Query normalisation used by the resolver: lower-case, then trim
surrounding whitespace. -/
def normalizeQuery (s : String) : String := String.mk (pyStrip (pyLower s.data))

/-- Embedding of `str.isdigit`: non-empty and all digits. -/
def isAllDigits (s : String) : Bool := !s.data.isEmpty && s.data.all Char.isDigit

/-- Embedding of `int(...)` applied to an all-digit string. -/
def pyParseNat (s : String) : Nat := s.data.foldl (fun n c => 10 * n + (c.toNat - 48)) 0

/-- Substring test: does `needle` occur anywhere inside `hay`? -/
def containsSub (needle hay : String) : Bool :=
  hay.data.tails.any (fun t => needle.data.isPrefixOf t)

/-! ## PadInfo data model

The catalog entity (`dadguide.DgMonster`) with the fields the PadInfo
cog and the resolver consult. -/

/-- Priority tier of an entity's family (spec section 4.5). -/
inductive Tier
  | high
  | low
  | unknown
deriving DecidableEq

/-- Rank used to compare tiers: High beats Low beats Unknown. -/
def tierRank : Tier → Nat
  | Tier.high => 2
  | Tier.low => 1
  | Tier.unknown => 0

/-- One catalog entity, with the fields read by `padinfo.py` and by the
resolver described in the spec (id, region ids, display names, rarity,
priority tier, family size, canonical nickname, qualifier prefixes,
NA-region availability). -/
structure Monster where
  monster_id : Nat
  monster_no_na : Nat
  name_na : String
  name_jp : String
  rarity : Nat
  tier : Tier
  family_size : Nat
  nickname : String
  prefixes : List String
  on_na : Bool
deriving DecidableEq

/-- Error kinds returned by the resolver (spec section 7). -/
inductive ErrKind
  | NotFound
  | TooShort
  | LooksLikeIdButMissing
deriving DecidableEq

/-- Modelled from the spec: the immutable Index Snapshot (spec section 3)
produced by the Dadguide cog's `create_index`, which is not under
`src/`.  It records the entities included in this generation and the
two string-to-entity lookup tables. -/
structure MonsterIndex where
  monsters : List Monster
  primary : List (String × Monster)
  secondWord : List (String × Monster)
deriving DecidableEq

/-- Lexicographic strictly-less test on a triple of naturals. -/
def keyLtB (a b : Nat × Nat × Nat) : Bool :=
  decide (a.1 < b.1) ||
    (a.1 == b.1 && (decide (a.2.1 < b.2.1) ||
      (a.2.1 == b.2.1 && decide (a.2.2 < b.2.2))))

/-- Index-construction processing key (spec section 4.6): tier first,
then descending family size, then descending region id. -/
def sortKey (m : Monster) : Nat × Nat × Nat :=
  (tierRank m.tier, m.family_size, m.monster_no_na)

/-- Tie-break key (spec section 4.9, `pickBestMonster`): priority tier,
then rarity, then region identifier, all compared descending. -/
def tieBreakKey (m : Monster) : Nat × Nat × Nat :=
  (tierRank m.tier, m.rarity, m.monster_no_na)

/-- Insert one entity into a list kept in descending `sortKey` order. -/
def insertOrdered (m : Monster) : List Monster → List Monster
  | [] => [m]
  | x :: xs => if keyLtB (sortKey x) (sortKey m) then m :: x :: xs else x :: insertOrdered m xs

/-- Modelled from the spec: order entities for index construction,
high-priority families first, larger families first (spec section 4.6). -/
def orderForIndex (ms : List Monster) : List Monster := ms.foldr insertOrdered []

/-- First-write-wins insertion into a lookup table; empty keys are never
inserted (spec section 3 invariant). -/
def insertIfAbsent (k : String) (m : Monster) (d : List (String × Monster)) :
    List (String × Monster) :=
  if k == "" then d
  else if (List.lookup k d).isSome then d else d ++ [(k, m)]

/-- Primary-map keys contributed by one entity: the canonical nickname,
and for every qualifier p both the fused form and the spaced form
(spec section 4.6). -/
def entryKeys (m : Monster) : List String :=
  m.nickname :: (m.prefixes.map (fun p => p ++ m.nickname) ++
    m.prefixes.map (fun p => p ++ " " ++ m.nickname))

/-- Insert all primary-map keys of one entity, first-write-wins. -/
def insertMonsterEntries (d : List (String × Monster)) (m : Monster) :
    List (String × Monster) :=
  (entryKeys m).foldl (fun acc k => insertIfAbsent k m acc) d

/-- The second word of a canonical nickname that splits into exactly two
whitespace-separated words (spec section 4.6). -/
def secondWordOf (m : Monster) : Option String :=
  match m.nickname.splitOn " " with
  | [_, w2] => some w2
  | _ => none

/-- Second-word-map keys contributed by one entity. -/
def secondWordKeys (m : Monster) : List String :=
  match secondWordOf m with
  | none => []
  | some w2 => w2 :: (m.prefixes.map (fun p => p ++ w2) ++
      m.prefixes.map (fun p => p ++ " " ++ w2))

/-- Insert all second-word-map keys of one entity, first-write-wins. -/
def insertSecondWordEntries (d : List (String × Monster)) (m : Monster) :
    List (String × Monster) :=
  (secondWordKeys m).foldl (fun acc k => insertIfAbsent k m acc) d

/-- Modelled from the spec: the Dadguide cog's `create_index` (not under
`src/`).  Per the region-filter interface (spec section 6) it keeps the
entities satisfying the given predicate, and per spec section 4.6 it
builds the primary and second-word lookup tables from them in priority
order with first-write-wins insertion. -/
def create_index (db : List Monster) (pred : Monster → Bool) : MonsterIndex :=
  let monsters := db.filter pred
  let ordered := orderForIndex monsters
  { monsters := monsters
    primary := ordered.foldl insertMonsterEntries []
    secondWord := ordered.foldl insertSecondWordEntries [] }

/-! ## The query resolver

Modelled from the spec (section 4.8): the Dadguide cog's
`MonsterIndex.find_monster`, which is not under `src/`. -/

/-- Modelled from the spec: deterministic tie-break among candidates
(spec section 4.9): keep the maximum by `tieBreakKey`, the first such
candidate on exact key ties. -/
def pickBestMonster (candidates : List Monster) : Option Monster :=
  match candidates with
  | [] => none
  | m :: ms =>
    some (ms.foldl (fun best x => if keyLtB (tieBreakKey best) (tieBreakKey x) then x else best) m)

/-- Stage 2 of the cascade: exact primary-map key match. -/
def exactStage (idx : MonsterIndex) (q : String) : Option (Monster × String) :=
  (List.lookup q idx.primary).map (fun m => (m, "exact nickname match"))

/-- Stage 3 of the cascade: primary-map keys starting with the query
followed by a space, tie-broken. -/
def spacePrefixStage (idx : MonsterIndex) (q : String) : Option (Monster × String) :=
  let cands := (idx.primary.filter (fun kv => (q ++ " ").isPrefixOf kv.1)).map (fun kv => kv.2)
  (pickBestMonster cands).map
    (fun m => (m, "space nickname lookup, " ++ toString cands.length ++ " matches"))

/-- Stage 4 of the cascade: primary-map keys starting with the query,
tie-broken. -/
def plainPrefixStage (idx : MonsterIndex) (q : String) : Option (Monster × String) :=
  let cands := (idx.primary.filter (fun kv => q.isPrefixOf kv.1)).map (fun kv => kv.2)
  (pickBestMonster cands).map
    (fun m => (m, "nickname lookup, " ++ toString cands.length ++ " matches"))

/-- Stage 5 of the cascade: query as a case-insensitive beginning of
either display name, tie-broken. -/
def namePrefixStage (idx : MonsterIndex) (q : String) : Option (Monster × String) :=
  let cands := idx.monsters.filter
    (fun m => q.isPrefixOf (lowerStr m.name_na) || q.isPrefixOf (lowerStr m.name_jp))
  (pickBestMonster cands).map
    (fun m => (m, "name lookup, " ++ toString cands.length ++ " matches"))

/-- Stage 6 of the cascade: exact second-word-map key match. -/
def secondWordStage (idx : MonsterIndex) (q : String) : Option (Monster × String) :=
  (List.lookup q idx.secondWord).map (fun m => (m, "second word match"))

/-- Stage 7 of the cascade: query as a substring of either display name,
tie-broken. -/
def substringStage (idx : MonsterIndex) (q : String) : Option (Monster × String) :=
  let cands := idx.monsters.filter
    (fun m => containsSub q (lowerStr m.name_na) || containsSub q (lowerStr m.name_jp))
  (pickBestMonster cands).map
    (fun m => (m, "substring lookup, " ++ toString cands.length ++ " matches"))

/-- The nickname-table stages tried for queries of sufficient length,
in cascade order, each short-circuiting on a match. -/
def nameStages (idx : MonsterIndex) (q : String) : Option (Monster × String) :=
  (spacePrefixStage idx q) <|> (plainPrefixStage idx q) <|>
    (namePrefixStage idx q) <|> (secondWordStage idx q)

/-- Modelled from the spec: the resolver cascade run on an
already-normalised query (spec section 4.8).  All-digit queries go
through region-id lookup; then the exact key stage; short non-numeric
queries that matched nothing fail with TooShort before the remaining
stages; last comes the substring stage and the NotFound fall-through. -/
def find_monster_norm (idx : MonsterIndex) (q : String) :
    Option Monster × Option ErrKind × List String :=
  if isAllDigits q then
    match idx.monsters.find? (fun m => m.monster_no_na == pyParseNat q) with
    | some m => (some m, none, ["id lookup, 1 match"])
    | none => (none, some ErrKind.LooksLikeIdButMissing, ["id lookup, 0 matches"])
  else
    match exactStage idx q with
    | some (m, t) => (some m, none, [t])
    | none =>
      if q.length < 4 then (none, some ErrKind.TooShort, ["query too short"])
      else
        match nameStages idx q with
        | some (m, t) => (some m, none, [t])
        | none =>
          match substringStage idx q with
          | some (m, t) => (some m, none, [t])
          | none => (none, some ErrKind.NotFound, ["no stage matched"])

/-- Modelled from the spec: `MonsterIndex.find_monster` (spec sections
4.8 and 6): normalise the query text, then run the cascade. -/
def find_monster (idx : MonsterIndex) (query : String) :
    Option Monster × Option ErrKind × List String :=
  find_monster_norm idx (normalizeQuery query)

/-! ## The PadInfo cog state and methods (`padinfo/padinfo.py`) -/

/-- Path constant from `PadInfo.__init__`. -/
def historic_lookups_file_path : String := "data/padinfo/historic_lookups.json"

/-- The mutable attributes of the `PadInfo` cog that the embedded
methods read or write: the two index references (initially `None`), the
historic-lookup dictionary, plus a log of the JSON file writes the cog
performs (path and content of each `dataIO.save_json` call). -/
structure PadInfoState where
  index_all : Option MonsterIndex
  index_na : Option MonsterIndex
  historic_lookups : List (String × Int)
  file_writes : List (String × List (String × Int))
deriving DecidableEq

/-- Python dict assignment `d[k] = v` on an insertion-ordered
association list: overwrite in place if present, else append. -/
def dictInsert (k : String) (v : Int) (d : List (String × Int)) : List (String × Int) :=
  if (List.lookup k d).isSome then d.map (fun kv => bif kv.1 == k then (kv.1, v) else kv)
  else d ++ [(k, v)]

/-- The Dadguide cog's `get_monster_by_no`, modelled as a lookup in the
full entity database (not the index). -/
def get_monster_by_no (db : List Monster) (monster_no : Nat) : Option Monster :=
  db.find? (fun m => m.monster_id == monster_no)

/-- Embedding of `PadInfo._findMonster` (padinfo.py lines 478-480):
select `index_na` or `index_all` by the flag and run its
`find_monster`.  When the selected reference is still `None` (before
the first refresh) the attribute access on `None` raises, embedded as
`Except.error PyErr.attributeError`. -/
def _findMonster (s : PadInfoState) (query : String) (na_only : Bool) :
    Except PyErr (Option Monster × Option ErrKind × List String) :=
  match (if na_only then s.index_na else s.index_all) with
  | none => Except.error PyErr.attributeError
  | some monster_index => Except.ok (find_monster monster_index query)

/-- Embedding of `PadInfo.findMonster` (padinfo.py lines 466-476).
`rmdia` stands for `rpadutils.rmdiacritics`, whose source is not in the
repository snapshot; it is taken as a parameter.  On success the method
records the query in `historic_lookups`, saves that dictionary to its
backing JSON file, and re-fetches the entity from the database; when
`_findMonster` raises, the exception propagates before any write. -/
def findMonster (rmdia : String → String) (db : List Monster) (s : PadInfoState)
    (query : String) (na_only : Bool) :
    Except PyErr (Option Monster × Option ErrKind × List String) × PadInfoState :=
  match _findMonster s (rmdia query) na_only with
  | Except.error e => (Except.error e, s)
  | Except.ok (nm, err, debug_info) =>
    let monster_no : Int := match nm with | some m => (m.monster_id : Int) | none => -1
    let hl := dictInsert (rmdia query) monster_no s.historic_lookups
    let fw := s.file_writes ++ [(historic_lookups_file_path, hl)]
    let s' := { s with historic_lookups := hl, file_writes := fw }
    let m := match nm with | some nm' => get_monster_by_no db nm'.monster_id | none => none
    (Except.ok (m, err, debug_info), s')

/-- Embedding of `PadInfo.refresh_index` (padinfo.py lines 158-163).
`create_index_fn` stands for the external Dadguide cog's `create_index`
together with everything that can go wrong while producing an index
(feed errors, a missing cog); each of the two calls either returns an
index or raises.  The two assignments happen in order: `index_all`
first, `index_na` second, so a failure of the second call leaves the
first assignment in place. -/
def refresh_index (create_index_fn : (Monster → Bool) → Except PyErr MonsterIndex)
    (s : PadInfoState) : Except PyErr Unit × PadInfoState :=
  match create_index_fn (fun _ => true) with
  | Except.error e => (Except.error e, s)
  | Except.ok ia =>
    match create_index_fn (fun m => m.on_na) with
    | Except.error e => (Except.error e, { s with index_all := some ia })
    | Except.ok ina => (Except.ok (), { s with index_all := some ia, index_na := some ina })

/-- Embedding of one iteration of the `PadInfo.reload_nicknames` loop
(padinfo.py lines 146-156): attempt a refresh, catch and swallow any
exception, then sleep `60 * 60 * 1` seconds unconditionally.  Returns
the state after the iteration and the number of seconds slept. -/
def reload_nicknames_iter (refresh : PadInfoState → Except PyErr Unit × PadInfoState)
    (s : PadInfoState) : PadInfoState × Nat :=
  let r := refresh s
  (r.2, 60 * 60 * 1)

/-! ## The AutoMod2 cog (`automod2/automod2.py`)

Per-server settings: a name-keyed table of patterns and a channel-keyed
table of whitelist/blacklist rule names (the shape built by
`AutoMod2Settings.getServer`; dict keys are unique). -/

/-- One registered pattern, as stored by `AutoMod2Settings.addPattern`. -/
structure PatternRec where
  name : String
  include_pattern : String
  exclude_pattern : String
deriving DecidableEq

/-- Per-channel moderation configuration, as created by
`AutoMod2Settings.getChannel`. -/
structure ChannelConfig where
  whitelist : List String
  blacklist : List String
  image_limit : Nat
deriving DecidableEq

/-- Default channel configuration inserted by `getChannel` for a channel
with no existing entry. -/
def defaultChannelConfig : ChannelConfig :=
  { whitelist := [], blacklist := [], image_limit := 0 }

/-- One server's AutoMod2 settings. -/
structure ServerConfig where
  patterns : List (String × PatternRec)
  channels : List (String × ChannelConfig)
deriving DecidableEq

/-- Embedding of `AutoMod2Settings.checkPatternUsed` (automod2.py lines
511-518): does any channel of the server list this pattern name in its
whitelist or blacklist? -/
def checkPatternUsed (s : ServerConfig) (name : String) : Bool :=
  s.channels.any (fun cc => cc.2.whitelist.contains name || cc.2.blacklist.contains name)

/-- Embedding of `AutoMod2Settings.rmPattern` (automod2.py lines
520-524): raise `ReportableError` if the pattern is in use; otherwise
`dict.pop(name)`, which raises `KeyError` when the name is not a key of
the pattern table and removes that key otherwise. -/
def rmPattern (s : ServerConfig) (name : String) : Except PyErr Unit × ServerConfig :=
  if checkPatternUsed s name then (Except.error PyErr.reportableError, s)
  else
    match List.lookup name s.patterns with
    | none => (Except.error PyErr.keyError, s)
    | some _ =>
      (Except.ok (), { s with patterns := s.patterns.filter (fun kv => kv.1 != name) })

/-- Embedding of `pad_checkdigit` (automod2.py lines 422-429): read the
digit at index 7 (an `IndexError` if the string is shorter, a
`ValueError` if it is not a digit), sum the first seven digits plus 7,
and compare modulo 10. -/
def pad_checkdigit (n : String) : Except PyErr Bool :=
  match n.data.get? 7 with
  | none => Except.error PyErr.indexError
  | some c7 =>
    if c7.isDigit then
      match (n.data.take 7).mapM (fun c => if c.isDigit then some (c.toNat - 48) else none) with
      | none => Except.error PyErr.valueError
      | some ds => Except.ok ((c7.toNat - 48) == (7 + ds.foldl (fun a b => a + b) 0) % 10)
    else Except.error PyErr.valueError

/-- Embedding of `starts_with_code` (automod2.py lines 412-419): drop
spaces and tildes, return `False` on fewer than 8 remaining characters,
otherwise run the checkdigit test on the first 8. -/
def starts_with_code (txt : String) : Except PyErr Bool :=
  let t := txt.data.filter (fun c => !(c == ' ') && !(c == '~'))
  if t.length < 8 then Except.ok false
  else pad_checkdigit (String.mk (t.take 8))

/-- The module-level check functions reachable through the
`globals().get(...)` lookup in `matchesPattern`, keyed by name.  Only
the text-check functions of the module are meaningful targets of a
`:name:` pattern. -/
def registeredCheck (name : String) : Option (String → Except PyErr Bool) :=
  if name = "starts_with_code" then some starts_with_code
  else if name = "pad_checkdigit" then some pad_checkdigit
  else none

/-- Embedding of `matchesPattern` (automod2.py lines 396-409).  An empty
pattern never matches.  A pattern of the form `:name:` naming a
registered check runs that check inside a `try` whose `except` turns
any exception into `False`.  Every other pattern falls through to the
regex engine, taken as the parameter `reMatch` (`re.compile` plus
`match`, which can itself raise on a malformed pattern). -/
def matchesPattern (reMatch : String → String → Except PyErr Bool)
    (pattern txt : String) : Except PyErr Bool :=
  if pattern.data.length = 0 then Except.ok false
  else
    match (if pattern.data.head? = some ':' ∧ pattern.data.getLast? = some ':' then
        registeredCheck (String.mk (pattern.data.drop 1).dropLast) else none) with
    | some f =>
      match f txt with
      | Except.ok b => Except.ok b
      | Except.error _ => Except.ok false
    | none => reMatch pattern txt

/-- Embedding of `matchesIncludeExclude` (automod2.py lines 432-435). -/
def matchesIncludeExclude (reMatch : String → String → Except PyErr Bool)
    (include_pattern exclude_pattern txt : String) : Except PyErr Bool := do
  let bi ← matchesPattern reMatch include_pattern txt
  if bi then
    let be ← matchesPattern reMatch exclude_pattern txt
    pure (!be)
  else
    pure false

/-- Embedding of `AutoMod2Settings.getRulesForChannel`: resolve the
channel's whitelist and blacklist names through the server's pattern
table (a missing name is a `KeyError`). -/
def getRulesForChannel (s : ServerConfig) (channel_id : String) :
    Except PyErr (List PatternRec × List PatternRec) := do
  let ch := (List.lookup channel_id s.channels).getD defaultChannelConfig
  let wl ← ch.whitelist.mapM (fun n =>
    match List.lookup n s.patterns with
    | some p => Except.ok p
    | none => Except.error PyErr.keyError)
  let bl ← ch.blacklist.mapM (fun n =>
    match List.lookup n s.patterns with
    | some p => Except.ok p
    | none => Except.error PyErr.keyError)
  pure (wl, bl)

/-- The message attributes `mod_message` consults.  The flag
`author_is_mod_or_has_kick` is the value of
`mod_or_perms(ctx, kick_members=True)`, the external permission check
(automod2.py lines 38-45): true when the author holds the server's
moderator or admin role or the kick permission, false otherwise
(including when computing it raises). -/
structure DiscordMessage where
  author_id : String
  channel_id : String
  channel_name : String
  channel_is_private : Bool
  clean_content : String
  author_is_mod_or_has_kick : Bool
deriving DecidableEq

/-- Observable moderation actions of `mod_message`: deleting the
offending message and notifying its author (`deleteAndReport`). -/
inductive ModAction
  | deleteMessage (channel_id : String) (author_id : String) (content : String)
  | notifyUser (user_id : String) (text : String)
deriving DecidableEq

/-- Embedding of `AutoMod2.deleteAndReport`: delete the message and send
the notice to its author. -/
def deleteAndReport (msg : DiscordMessage) (outgoing : String) : List ModAction :=
  [ModAction.deleteMessage msg.channel_id msg.author_id msg.clean_content,
   ModAction.notifyUser msg.author_id outgoing]

/-- The violation notice sent to the author (the `msg_template` of
`mod_message`, with its placeholders filled in). -/
def violationMsg (msg : DiscordMessage) (policy : String) : String :=
  "Your message in " ++ msg.channel_name ++
    " was deleted for violating the following policy: " ++ policy ++
    " Message content: " ++ msg.clean_content

/-- The whitelist loop of `mod_message`: returns `none` as soon as one
whitelist matches (message allowed), otherwise the names of all failed
whitelists in order. -/
def whitelistScan (reMatch : String → String → Except PyErr Bool) (content : String) :
    List PatternRec → Except PyErr (Option (List String))
  | [] => Except.ok (some [])
  | v :: rest => do
    let b ← matchesIncludeExclude reMatch v.include_pattern v.exclude_pattern content
    if b then pure none
    else do
      let r ← whitelistScan reMatch content rest
      pure (r.map (fun f => v.name :: f))

/-- Embedding of `AutoMod2.mod_message` (automod2.py lines 235-273),
returning the list of moderation actions performed.  Messages from the
bot itself, in private channels, or from authors passing the
moderator/kick permission check are returned untouched before any rule
is consulted.  Otherwise every matching blacklist triggers a
delete-and-report, and if the channel has whitelists and none of them
matches, a final delete-and-report names the failed whitelists. -/
def mod_message (reMatch : String → String → Except PyErr Bool) (botUserId : String)
    (cfg : ServerConfig) (msg : DiscordMessage) : Except PyErr (List ModAction) :=
  if msg.author_id == botUserId || msg.channel_is_private then Except.ok []
  else if msg.author_is_mod_or_has_kick then Except.ok []
  else do
    let rules ← getRulesForChannel cfg msg.channel_id
    let whitelists := rules.1
    let blacklists := rules.2
    let blActs ← List.foldlM (fun acc v => do
        let b ← matchesIncludeExclude reMatch v.include_pattern v.exclude_pattern
          msg.clean_content
        pure (if b then acc ++ deleteAndReport msg (violationMsg msg v.name) else acc))
      [] blacklists
    if whitelists.isEmpty then pure blActs
    else
      match ← whitelistScan reMatch msg.clean_content whitelists with
      | none => pure blActs
      | some failed =>
        pure (blActs ++ deleteAndReport msg (violationMsg msg (String.intercalate "," failed)))

/-! ## Concrete sample data for witnesses and counterexamples -/

/-- An empty index snapshot. -/
def emptyIndex : MonsterIndex := { monsters := [], primary := [], secondWord := [] }

/-- A sample entity available in the NA region. -/
def sampleNaMonster : Monster :=
  { monster_id := 1, monster_no_na := 1, name_na := "A", name_jp := "AJ", rarity := 5,
    tier := Tier.high, family_size := 1, nickname := "alpha", prefixes := [], on_na := true }

/-- A sample entity not available in the NA region. -/
def sampleJpMonster : Monster :=
  { monster_id := 2, monster_no_na := 2, name_na := "B", name_jp := "BJ", rarity := 6,
    tier := Tier.low, family_size := 1, nickname := "beta", prefixes := [], on_na := false }

/-- A non-empty index snapshot, distinct from `emptyIndex`. -/
def sampleIndex : MonsterIndex :=
  { monsters := [sampleJpMonster], primary := [], secondWord := [] }

/-- An index-construction collaborator that succeeds for the accept-all
predicate but raises for the NA-availability predicate: the two are
told apart by their value on `sampleJpMonster`. -/
def failingSecondCreate : (Monster → Bool) → Except PyErr MonsterIndex :=
  fun pred => if pred sampleJpMonster then Except.ok sampleIndex else Except.error PyErr.generic

/-! ## Helper lemmas about the string primitives -/

theorem toNat_ofNat_valid (n : Nat) (h : n < 55296) : (Char.ofNat n).toNat = n := by
  unfold Char.ofNat
  rw [dif_pos (Or.inl h)]
  rfl

theorem char_beq_false_of_toNat_ne {c d : Char} (h : c.toNat ≠ d.toNat) : (c == d) = false := by
  rw [beq_eq_false_iff_ne]
  intro hEq
  exact h (by rw [hEq])

theorem isSpaceChar_false_of_big {c : Char} (h : 33 ≤ c.toNat) : isSpaceChar c = false := by
  unfold isSpaceChar
  have h1 : (' ' : Char).toNat = 32 := rfl
  have h2 : ('\t' : Char).toNat = 9 := rfl
  have h3 : ('\n' : Char).toNat = 10 := rfl
  have h4 : ('\r' : Char).toNat = 13 := rfl
  rw [char_beq_false_of_toNat_ne (by omega), char_beq_false_of_toNat_ne (by omega),
      char_beq_false_of_toNat_ne (by omega), char_beq_false_of_toNat_ne (by omega)]
  rfl

theorem pyLowerChar_idem (c : Char) : pyLowerChar (pyLowerChar c) = pyLowerChar c := by
  unfold pyLowerChar
  by_cases h : 65 ≤ c.toNat ∧ c.toNat ≤ 90
  · rw [if_pos h]
    have h2 : (Char.ofNat (c.toNat + 32)).toNat = c.toNat + 32 :=
      toNat_ofNat_valid _ (by omega)
    rw [if_neg (by omega)]
  · rw [if_neg h, if_neg h]

theorem isSpaceChar_pyLowerChar (c : Char) : isSpaceChar (pyLowerChar c) = isSpaceChar c := by
  unfold pyLowerChar
  by_cases h : 65 ≤ c.toNat ∧ c.toNat ≤ 90
  · rw [if_pos h]
    have h2 : (Char.ofNat (c.toNat + 32)).toNat = c.toNat + 32 :=
      toNat_ofNat_valid _ (by omega)
    rw [isSpaceChar_false_of_big (by omega), isSpaceChar_false_of_big (by omega)]
  · rw [if_neg h]

theorem pyLower_idem (l : List Char) : pyLower (pyLower l) = pyLower l := by
  unfold pyLower
  rw [List.map_map]
  exact List.map_congr_left (fun c _ => pyLowerChar_idem c)

theorem isSpace_comp_lower : (isSpaceChar ∘ pyLowerChar) = isSpaceChar :=
  funext fun c => isSpaceChar_pyLowerChar c

theorem pyStrip_pyLower_comm (l : List Char) :
    pyStrip (pyLower l) = pyLower (pyStrip l) := by
  unfold pyStrip pyLower
  rw [List.dropWhile_map, isSpace_comp_lower, ← List.map_reverse,
      List.dropWhile_map, isSpace_comp_lower, ← List.map_reverse]

theorem dropWhile_head_false (l : List Char) :
    ∀ c, (l.dropWhile isSpaceChar).head? = some c → isSpaceChar c = false := by
  induction l with
  | nil => intro c h; simp at h
  | cons a t ih =>
    intro c h
    by_cases ha : isSpaceChar a
    · rw [List.dropWhile_cons_of_pos ha] at h
      exact ih c h
    · rw [List.dropWhile_cons_of_neg ha] at h
      simp at h
      rw [← h]
      simpa using ha

theorem dropWhile_self_of_head (l : List Char)
    (h : ∀ c, l.head? = some c → isSpaceChar c = false) :
    l.dropWhile isSpaceChar = l := by
  cases l with
  | nil => rfl
  | cons a t =>
    have := h a rfl
    rw [List.dropWhile_cons_of_neg (by simp [this])]

theorem pyStrip_head_false (l : List Char) :
    ∀ c, (pyStrip l).head? = some c → isSpaceChar c = false := by
  intro c h
  unfold pyStrip at h
  rw [List.head?_reverse] at h
  set y := (l.dropWhile isSpaceChar).reverse with hy
  rcases hs : y.dropWhile isSpaceChar with _ | ⟨a, t⟩
  · rw [hs] at h; simp at h
  · rw [hs] at h
    have hsuff : y.dropWhile isSpaceChar <:+ y := List.dropWhile_suffix _
    rw [hs] at hsuff
    obtain ⟨pre, hpre⟩ := hsuff
    have hy' : y.getLast? = some c := by
      rw [← hpre, List.getLast?_append_of_ne_nil pre (by simp)]
      exact h
    rw [hy, List.getLast?_reverse] at hy'
    exact dropWhile_head_false l c hy'

theorem pyStrip_last_false (l : List Char) :
    ∀ c, (pyStrip l).getLast? = some c → isSpaceChar c = false := by
  intro c h
  unfold pyStrip at h
  rw [List.getLast?_reverse] at h
  exact dropWhile_head_false _ c h

theorem pyStrip_fixed (l : List Char)
    (hh : ∀ c, l.head? = some c → isSpaceChar c = false)
    (hl : ∀ c, l.getLast? = some c → isSpaceChar c = false) :
    pyStrip l = l := by
  unfold pyStrip
  rw [dropWhile_self_of_head l hh]
  rw [dropWhile_self_of_head l.reverse (by
    intro c h
    rw [List.head?_reverse] at h
    exact hl c h)]
  exact List.reverse_reverse l

theorem pyStrip_idem (l : List Char) : pyStrip (pyStrip l) = pyStrip l :=
  pyStrip_fixed _ (pyStrip_head_false l) (pyStrip_last_false l)

theorem normalizeQuery_idem (s : String) :
    normalizeQuery (normalizeQuery s) = normalizeQuery s := by
  unfold normalizeQuery
  show String.mk (pyStrip (pyLower (pyStrip (pyLower s.data)))) = _
  rw [← pyStrip_pyLower_comm, pyLower_idem, pyStrip_idem]

/-! ## Helper lemmas about the embedded operations -/

theorem lookup_map_overwrite_ne (k k' : String) (v : Int) (d : List (String × Int))
    (h : k ≠ k') :
    List.lookup k (d.map (fun kv => bif kv.1 == k' then (kv.1, v) else kv)) =
      List.lookup k d := by
  induction d with
  | nil => rfl
  | cons a t ih =>
    obtain ⟨a1, a2⟩ := a
    by_cases h2 : (a1 == k') = true
    · have hka : (k == a1) = false := by
        rw [beq_eq_false_iff_ne]
        intro hEq
        exact h (by rw [hEq, eq_of_beq h2])
      simp [List.lookup, h2, hka, ih]
    · rw [Bool.not_eq_true] at h2
      by_cases h3 : (k == a1) = true
      · simp [List.lookup, h2, h3]
      · rw [Bool.not_eq_true] at h3
        simp [List.lookup, h2, h3, ih]

theorem lookup_append_singleton_ne (k k' : String) (v : Int) (d : List (String × Int))
    (h : k ≠ k') :
    List.lookup k (d ++ [(k', v)]) = List.lookup k d := by
  induction d with
  | nil =>
    have hkk : (k == k') = false := beq_eq_false_iff_ne.mpr h
    simp [List.lookup, hkk]
  | cons a t ih =>
    obtain ⟨a1, a2⟩ := a
    by_cases h3 : (k == a1) = true
    · simp [List.lookup, h3]
    · rw [Bool.not_eq_true] at h3
      simp [List.lookup, h3, ih]

theorem lookup_dictInsert_ne (k k' : String) (v : Int) (d : List (String × Int))
    (h : k ≠ k') :
    List.lookup k (dictInsert k' v d) = List.lookup k d := by
  unfold dictInsert
  by_cases h2 : (List.lookup k' d).isSome
  · rw [if_pos h2]
    exact lookup_map_overwrite_ne k k' v d h
  · rw [if_neg h2]
    exact lookup_append_singleton_ne k k' v d h

theorem find_monster_none_of_err (idx : MonsterIndex) (q : String) :
    ((find_monster idx q).2.1).isSome = true → (find_monster idx q).1 = none := by
  unfold find_monster find_monster_norm
  split
  · split <;> simp
  · split
    · simp
    · split
      · simp
      · split
        · simp
        · split <;> simp

/-! ## Claim C3 -/

/-- C3 counterexample: the loop body of `reload_nicknames` sleeps the
same `60 * 60` seconds whether the refresh raised or succeeded, so the
delay after a failed refresh is not strictly shorter than the delay
after a successful one. -/
theorem c3_counterexample :
    ¬ ((reload_nicknames_iter (fun s => (Except.error PyErr.generic, s))
          ⟨none, none, [], []⟩).2 <
       (reload_nicknames_iter (fun s => (Except.ok (), s))
          ⟨none, none, [], []⟩).2) := by
  decide

/-- C3 (amended): every iteration of the `reload_nicknames` loop sleeps
exactly 3600 seconds, regardless of whether the refresh succeeded or
failed; the interval is the hard-coded literal `60 * 60 * 1` in the
loop body, not an externally configured value. -/
theorem c3_fixed_sleep (refresh : PadInfoState → Except PyErr Unit × PadInfoState)
    (s : PadInfoState) :
    (reload_nicknames_iter refresh s).2 = 3600 := rfl

/-! ## Claim C8 -/

/-- C8 counterexample: with an empty pattern table and the name "x" used
by no channel, `rmPattern` does not remove an entry and succeed as the
claim states; `dict.pop` raises `KeyError`. -/
theorem c8_counterexample :
    checkPatternUsed ⟨[], []⟩ "x" = false ∧
    (rmPattern ⟨[], []⟩ "x").1 ≠ Except.ok () ∧
    (rmPattern ⟨[], []⟩ "x").1 = Except.error PyErr.keyError := by
  decide

/-- C8 (amended): if the pattern name appears in any channel's whitelist
or blacklist, `rmPattern` raises `ReportableError` and leaves the
settings unchanged; if it is unused and present in the pattern table,
`rmPattern` removes exactly that entry and leaves the channels
unchanged; if it is unused and absent, `rmPattern` raises `KeyError`
and leaves the settings unchanged. -/
theorem c8_guarded_removal (s : ServerConfig) (n : String) :
    (checkPatternUsed s n = true →
      rmPattern s n = (Except.error PyErr.reportableError, s)) ∧
    (checkPatternUsed s n = false → ∀ p, List.lookup n s.patterns = some p →
      rmPattern s n =
        (Except.ok (), ⟨s.patterns.filter (fun kv => kv.1 != n), s.channels⟩)) ∧
    (checkPatternUsed s n = false → List.lookup n s.patterns = none →
      rmPattern s n = (Except.error PyErr.keyError, s)) := by
  refine ⟨?_, ?_, ?_⟩
  · intro h
    unfold rmPattern
    rw [if_pos h]
  · intro h p hp
    unfold rmPattern
    rw [if_neg (by simp [h]), hp]
  · intro h hp
    unfold rmPattern
    rw [if_neg (by simp [h]), hp]

/-- C8 witness: removing the unused pattern "x" from a table holding
only "x" succeeds and empties the table. -/
theorem c8_guarded_removal_witness :
    rmPattern ⟨[("x", ⟨"x", "a", "b"⟩)], []⟩ "x" =
      (Except.ok (), ⟨[], []⟩) := by
  have h := (c8_guarded_removal ⟨[("x", ⟨"x", "a", "b"⟩)], []⟩ "x").2.1
    (by decide) ⟨"x", "a", "b"⟩ (by decide)
  exact h

/-! ## Claim C10 -/

/-- C10: `matchesPattern` is total on the empty and named-check shapes:
an empty pattern yields `False` for every text, and for a pattern
`:name:` naming a registered check function, any exception raised
inside the check is caught and the result is `False` rather than a
propagated exception. -/
theorem c10_matchesPattern_total :
    (∀ reMatch txt, matchesPattern reMatch "" txt = Except.ok false) ∧
    (∀ reMatch name f txt e, registeredCheck name = some f →
      f txt = Except.error e →
      matchesPattern reMatch (":" ++ name ++ ":") txt = Except.ok false) := by
  constructor
  · intro reMatch txt
    rfl
  · intro reMatch name f txt e hreg herr
    have hdata : (":" ++ name ++ ":").data = (':' :: name.data) ++ [':'] := rfl
    unfold matchesPattern
    rw [hdata]
    rw [if_neg (by simp)]
    rw [if_pos ⟨rfl, by rw [List.getLast?_concat]⟩]
    have hmid : String.mk ((((':' :: name.data) ++ [':']).drop 1).dropLast) = name := by
      show String.mk ((name.data ++ [':']).dropLast) = name
      rw [List.dropLast_concat]
    rw [hmid, hreg]
    show (match f txt with
      | Except.ok b => Except.ok b
      | Except.error _ => Except.ok false) = Except.ok false
    rw [herr]

/-- C10 witness: the check `pad_checkdigit` raises on the short text
"abc" (index 7 is out of range), and `matchesPattern` turns that into
`False`. -/
theorem c10_matchesPattern_total_witness :
    registeredCheck "pad_checkdigit" = some pad_checkdigit ∧
    pad_checkdigit "abc" = Except.error PyErr.indexError ∧
    matchesPattern (fun _ _ => Except.ok false) (":" ++ "pad_checkdigit" ++ ":") "abc" =
      Except.ok false := by
  refine ⟨rfl, by decide, ?_⟩
  exact c10_matchesPattern_total.2 (fun _ _ => Except.ok false) "pad_checkdigit"
    pad_checkdigit "abc" PyErr.indexError rfl (by decide)

/-! ## Claim C1 -/

/-- C1 counterexample: when the first index construction succeeds and
the second raises, the failed `refresh_index` leaves `index_all`
pointing at the new generation while `index_na` keeps its previous
value — the previous snapshot pair is not left entirely active, and a
mixed old/new state is visible. -/
theorem c1_counterexample :
    (refresh_index failingSecondCreate
        ⟨some emptyIndex, some emptyIndex, [], []⟩).1 = Except.error PyErr.generic ∧
    (refresh_index failingSecondCreate
        ⟨some emptyIndex, some emptyIndex, [], []⟩).2.index_all ≠ some emptyIndex ∧
    (refresh_index failingSecondCreate
        ⟨some emptyIndex, some emptyIndex, [], []⟩).2.index_na = some emptyIndex := by
  decide

/-- C1 (amended): `refresh_index` is not all-or-nothing.  If the first
index construction raises, both references keep their previous values;
but if the first succeeds and the second raises, the exception leaves
`index_all` already replaced by the new generation while `index_na`
retains its previous value; only when both succeed are both references
replaced. -/
theorem c1_sequential_refresh
    (ci : (Monster → Bool) → Except PyErr MonsterIndex) (s : PadInfoState) :
    (∀ e, ci (fun _ => true) = Except.error e →
      refresh_index ci s = (Except.error e, s)) ∧
    (∀ ia e, ci (fun _ => true) = Except.ok ia →
      ci (fun m => m.on_na) = Except.error e →
      refresh_index ci s = (Except.error e, { s with index_all := some ia })) ∧
    (∀ ia ina, ci (fun _ => true) = Except.ok ia →
      ci (fun m => m.on_na) = Except.ok ina →
      refresh_index ci s =
        (Except.ok (), { s with index_all := some ia, index_na := some ina })) := by
  refine ⟨?_, ?_, ?_⟩
  · intro e h1
    unfold refresh_index
    rw [h1]
  · intro ia e h1 h2
    unfold refresh_index
    rw [h1, h2]
  · intro ia ina h1 h2
    unfold refresh_index
    rw [h1, h2]

/-- C1 witness: a concrete run in which the second construction fails
after the first succeeded, exercising the mixed-state clause. -/
theorem c1_sequential_refresh_witness :
    refresh_index failingSecondCreate ⟨some emptyIndex, some emptyIndex, [], []⟩ =
      (Except.error PyErr.generic, ⟨some sampleIndex, some emptyIndex, [], []⟩) :=
  (c1_sequential_refresh failingSecondCreate
    ⟨some emptyIndex, some emptyIndex, [], []⟩).2.1 sampleIndex PyErr.generic rfl rfl

/-! ## Claim C2 -/

/-- C2 counterexample: resolving the query "abc" against a state with a
published (empty) index mutates the historic-lookup dictionary and
writes its backing file, so `findMonster` is not read-only. -/
theorem c2_counterexample :
    (findMonster id [] ⟨some emptyIndex, none, [], []⟩ "abc" false).2.historic_lookups
      ≠ ([] : List (String × Int)) ∧
    (findMonster id [] ⟨some emptyIndex, none, [], []⟩ "abc" false).2.file_writes
      ≠ ([] : List (String × List (String × Int))) := by
  decide

/-- C2 (amended): `findMonster` never touches the index references, and
its only state effects are recording the (diacritic-stripped) query in
`historic_lookups` — every other key reads unchanged — and appending a
write of that dictionary's backing JSON file to the write log; the
resolver core `_findMonster` itself reads only the index references. -/
theorem c2_frame (rmdia : String → String) (db : List Monster) (s : PadInfoState)
    (query : String) (na_only : Bool) :
    (findMonster rmdia db s query na_only).2.index_all = s.index_all ∧
    (findMonster rmdia db s query na_only).2.index_na = s.index_na ∧
    (∀ k, k ≠ rmdia query →
      List.lookup k (findMonster rmdia db s query na_only).2.historic_lookups =
        List.lookup k s.historic_lookups) ∧
    (∀ w ∈ s.file_writes, w ∈ (findMonster rmdia db s query na_only).2.file_writes) ∧
    (∀ w ∈ (findMonster rmdia db s query na_only).2.file_writes,
      w ∈ s.file_writes ∨ w.1 = historic_lookups_file_path) := by
  unfold findMonster
  rcases hfm : _findMonster s (rmdia query) na_only with e | ⟨nm, err, tr⟩
  · refine ⟨rfl, rfl, fun k hk => rfl, fun w hw => hw, fun w hw => Or.inl hw⟩
  · refine ⟨rfl, rfl, ?_, ?_, ?_⟩
    · intro k hk
      exact lookup_dictInsert_ne k (rmdia query) _ s.historic_lookups hk
    · intro w hw
      exact List.mem_append_left _ hw
    · intro w hw
      rcases List.mem_append.mp hw with h | h
      · exact Or.inl h
      · simp at h
        rw [h]
        exact Or.inr rfl

/-- C2 witness: on a concrete run, the untouched key "zzz" still reads
as absent and the index reference is unchanged. -/
theorem c2_frame_witness :
    List.lookup "zzz"
        (findMonster id [] ⟨some emptyIndex, none, [], []⟩ "abc" false).2.historic_lookups =
      List.lookup "zzz" ([] : List (String × Int)) ∧
    (findMonster id [] ⟨some emptyIndex, none, [], []⟩ "abc" false).2.index_all =
      some emptyIndex :=
  ⟨(c2_frame id [] ⟨some emptyIndex, none, [], []⟩ "abc" false).2.2.1 "zzz" (by decide),
   (c2_frame id [] ⟨some emptyIndex, none, [], []⟩ "abc" false).1⟩

/-! ## Claim C4 -/

/-- C4 counterexample: before the first refresh has completed the index
references are still `None`, and `findMonster` then raises (the
attribute access `monster_index.find_monster` on `None`) instead of
returning a structured triple. -/
theorem c4_counterexample :
    (findMonster id [] ⟨none, none, [], []⟩ "abc" false).1 =
      Except.error PyErr.attributeError := by
  decide

/-- C4 (amended): once the selected index reference is published,
`findMonster` raises no exception: it returns a structured triple, and
an error kind is only ever reported together with a `None` entity.
Before the first refresh (reference still `None`) the call raises
instead. -/
theorem c4_structured_result (rmdia : String → String) (db : List Monster)
    (s : PadInfoState) (query : String) (na_only : Bool) (idx : MonsterIndex)
    (h : (if na_only then s.index_na else s.index_all) = some idx) :
    ∃ m e t, (findMonster rmdia db s query na_only).1 = Except.ok (m, e, t) ∧
      (e.isSome = true → m = none) := by
  have hinner : _findMonster s (rmdia query) na_only =
      Except.ok (find_monster idx (rmdia query)) := by
    unfold _findMonster
    rw [h]
  unfold findMonster
  rcases hfm : find_monster idx (rmdia query) with ⟨nm, err, tr⟩
  rw [hinner, hfm]
  refine ⟨_, err, tr, rfl, ?_⟩
  intro hs
  have h2 := find_monster_none_of_err idx (rmdia query)
  rw [hfm] at h2
  have h3 : nm = none := h2 hs
  rw [h3]

/-- C4 witness: a concrete state with a published index yields a
structured result. -/
theorem c4_structured_result_witness :
    ∃ m e t, (findMonster id [] ⟨some emptyIndex, none, [], []⟩ "abc" false).1 =
      Except.ok (m, e, t) ∧ (e.isSome = true → m = none) :=
  c4_structured_result id [] ⟨some emptyIndex, none, [], []⟩ "abc" false emptyIndex rfl

/-! ## Claim C5 -/

/-- C5: after a successful refresh, resolving with `na_only = True`
consults exactly the index built with the `on_na` predicate — all of
whose entities are marked available on NA — while resolving without
the flag consults the index built from all entities. -/
theorem c5_region_filter (db : List Monster) (s s' : PadInfoState) (query : String)
    (h : refresh_index (fun pred => Except.ok (create_index db pred)) s =
      (Except.ok (), s')) :
    _findMonster s' query true =
      Except.ok (find_monster (create_index db (fun m => m.on_na)) query) ∧
    _findMonster s' query false =
      Except.ok (find_monster (create_index db (fun _ => true)) query) ∧
    ∀ m ∈ (create_index db (fun m => m.on_na)).monsters, m.on_na = true := by
  have hs' : s' =
      ⟨some (create_index db (fun _ => true)), some (create_index db (fun m => m.on_na)),
        s.historic_lookups, s.file_writes⟩ := by
    have h2 := congrArg Prod.snd h
    exact h2.symm
  subst hs'
  refine ⟨rfl, rfl, ?_⟩
  intro m hm
  have h3 : m ∈ db.filter (fun m => m.on_na) := hm
  exact (List.mem_filter.mp h3).2

/-- C5 witness: a concrete refresh over a one-entity database, resolved
with the NA flag. -/
theorem c5_region_filter_witness :
    _findMonster
        (refresh_index (fun pred => Except.ok (create_index [sampleNaMonster] pred))
          ⟨none, none, [], []⟩).2 "x" true =
      Except.ok (find_monster (create_index [sampleNaMonster] (fun m => m.on_na)) "x") :=
  (c5_region_filter [sampleNaMonster] ⟨none, none, [], []⟩ _ "x" rfl).1

/-! ## Claim C6 -/

/-- C6: resolution is deterministic: the result of `_findMonster`
depends only on the index snapshot references, so any two calls with
the same query against states holding identical snapshots — whatever
their historic-lookup dictionaries or write logs — return identical
results. -/
theorem c6_deterministic (s₁ s₂ : PadInfoState) (query : String) (na_only : Bool)
    (h_all : s₁.index_all = s₂.index_all) (h_na : s₁.index_na = s₂.index_na) :
    _findMonster s₁ query na_only = _findMonster s₂ query na_only := by
  unfold _findMonster
  rw [h_all, h_na]

/-- C6 witness: two states sharing the same snapshot but with different
historic dictionaries resolve a query identically. -/
theorem c6_deterministic_witness :
    _findMonster ⟨some emptyIndex, none, [], []⟩ "kali" false =
      _findMonster ⟨some emptyIndex, none, [("a", 1)], [("f", [])]⟩ "kali" false :=
  c6_deterministic ⟨some emptyIndex, none, [], []⟩
    ⟨some emptyIndex, none, [("a", 1)], [("f", [])]⟩ "kali" false rfl rfl

/-! ## Claim C7 -/

/-- C7: the resolver normalises the query before matching: resolving any
query gives the same result as resolving its lower-cased,
whitespace-trimmed form. -/
theorem c7_query_normalized (idx : MonsterIndex) (query : String) :
    find_monster idx query = find_monster idx (normalizeQuery query) := by
  unfold find_monster
  rw [normalizeQuery_idem]

/-! ## Claim C9 -/

/-- C9: the message filter never acts on exempt messages: if the author
is the bot itself, or the channel is private, or the author passes the
moderator/kick-permission check, `mod_message` performs no deletion and
sends no notification, regardless of the channel's whitelist and
blacklist rules. -/
theorem c9_exempt_messages (reMatch : String → String → Except PyErr Bool)
    (botUserId : String) (cfg : ServerConfig) (msg : DiscordMessage)
    (h : msg.author_id = botUserId ∨ msg.channel_is_private = true ∨
      msg.author_is_mod_or_has_kick = true) :
    mod_message reMatch botUserId cfg msg = Except.ok [] := by
  unfold mod_message
  rcases h with h | h | h
  · rw [if_pos (by simp [h])]
  · rw [if_pos (by simp [h])]
  · by_cases h1 : (msg.author_id == botUserId || msg.channel_is_private) = true
    · rw [if_pos h1]
    · rw [if_neg h1, if_pos h]

/-- C9 witness: a private-channel message in a server that does have a
blacklist rule whose pattern matches everything is still untouched. -/
theorem c9_exempt_messages_witness :
    mod_message (fun _ _ => Except.ok true) "bot"
      ⟨[("p", ⟨"p", ".*", ""⟩)], [("c", ⟨[], ["p"], 0⟩)]⟩
      ⟨"user", "c", "general", true, "hello", false⟩ = Except.ok [] :=
  c9_exempt_messages (fun _ _ => Except.ok true) "bot"
    ⟨[("p", ⟨"p", ".*", ""⟩)], [("c", ⟨[], ["p"], 0⟩)]⟩
    ⟨"user", "c", "general", true, "hello", false⟩ (Or.inr (Or.inl rfl))

end RpadCogs
